import Mathlib

/-!
Shallow embedding of the teledetection platform's auth service and API
gateway (src/services/auth-service/main.py, src/services/api-gateway/main.py,
src/shared/utils, src/shared/models), together with proofs of the spec's
claims about token issuance, verification, revocation and gateway dispatch.
-/

namespace Teledetection

/-! ## Roles (shared/models UserRole, database.py enum) -/

inductive UserRole where
  | admin
  | analyst
  | viewer
deriving DecidableEq, Repr

/-! ## Token codec (shared/utils create_access_token / verify_token over PyJWT)

A JWT is modelled as either a well-formed signed token carrying its payload,
the secret it was signed with and the algorithm name, or an arbitrary
malformed string.  `jwt.decode` succeeds exactly when the signature (secret)
matches, the algorithm is in the allow-list, and the expiry has not elapsed;
every other case raises a `PyJWTError`, which `verify_token` maps to `None`. -/

structure TokenPayload where
  sub : String
  username : String
  email : String
  role : UserRole
  exp : Nat
deriving DecidableEq, Repr

inductive Token where
  | signed (payload : TokenPayload) (secret : String) (alg : String)
  | malformed (raw : String)
deriving DecidableEq, Repr

/-- The claim dict passed to `create_access_token` (sub/username/email/role);
the expiry is added by the codec itself. -/
structure TokenData where
  sub : String
  username : String
  email : String
  role : UserRole
deriving DecidableEq, Repr

def create_access_token (data : TokenData) (secret_key : String)
    (algorithm : String) (now : Nat) (expires_delta : Nat) : Token :=
  Token.signed ⟨data.sub, data.username, data.email, data.role, now + expires_delta⟩
    secret_key algorithm

/-- `utils.verify_token`: decode or `None` on any `PyJWTError` (bad signature,
wrong algorithm, malformed structure, or elapsed expiry). -/
def verify_token (token : Token) (secret_key : String) (algorithm : String)
    (now : Nat) : Option TokenPayload :=
  match token with
  | Token.signed p s a =>
      if s = secret_key ∧ a = algorithm ∧ now < p.exp then some p else none
  | Token.malformed _ => none

def tokenSub : Token → String
  | Token.signed p _ _ => p.sub
  | Token.malformed _ => ""

/-! ## Password hashing (shared/utils hash_password / verify_password)

bcrypt is abstracted as an injective tagging function; `verify_password`
checks the plaintext against the stored hash, exactly the contract the auth
service relies on. -/

def hash_password (password : String) : String :=
  "bcrypt$" ++ password

def verify_password (plain_password : String) (hashed_password : String) : Bool :=
  hash_password plain_password == hashed_password

/-! ## Identity records and CRUD (database.py User, crud.py UserCRUD)

The credential store is an opaque datastore; it is modelled as the list of
persisted rows, with the CRUD lookups from crud.py. `id` stands for the
stringified UUID primary key (`str(user.id)`). -/

structure UserRec where
  id : String
  email : String
  username : String
  full_name : Option String
  password_hash : String
  role : UserRole
  is_active : Bool
  created_at : Nat
  updated_at : Option Nat
  last_login : Option Nat
deriving DecidableEq, Repr

def crud_get (users : List UserRec) (user_id : String) : Option UserRec :=
  users.find? (fun u => u.id == user_id)

def get_by_email (users : List UserRec) (email : String) : Option UserRec :=
  users.find? (fun u => u.email == email)

def get_by_username (users : List UserRec) (username : String) : Option UserRec :=
  users.find? (fun u => u.username == username)

def update_last_login (users : List UserRec) (user_id : String) (now : Nat) :
    List UserRec :=
  users.map (fun u => if u.id == user_id then { u with last_login := some now } else u)

/-- `UserCreate` request body (shared/models): optional `role` defaults to
the least-privileged `viewer`, optional `is_active` defaults to `true`. -/
structure UserCreate where
  email : String
  username : String
  full_name : Option String
  role : UserRole
  is_active : Bool
  password : String
deriving DecidableEq, Repr

/-- Pydantic parsing of a register body: absent optional fields are filled
with the model defaults (`role = viewer`, `is_active = true`). -/
def mkUserCreate (email username password : String) (full_name : Option String)
    (role : Option UserRole) (active : Option Bool) : UserCreate :=
  ⟨email, username, full_name, role.getD UserRole.viewer, active.getD true, password⟩

/-- `UserCRUD.create`: hash the password and persist a new row with the
request's role and is_active; the UUID primary key is generated by the
database and supplied here as `new_id`. -/
def crud_create (users : List UserRec) (uc : UserCreate) (new_id : String)
    (now : Nat) : List UserRec :=
  users ++ [⟨new_id, uc.email, uc.username, uc.full_name,
    hash_password uc.password, uc.role, uc.is_active, now, none, none⟩]

/-! ## Revocation store (redis client used by the auth service)

A redis key-value store with per-entry TTL; `setex` unconditionally
overwrites, `delete` of an absent key is a no-op. -/

structure RedisEntry where
  ttl : Nat
  value : Token
deriving DecidableEq, Repr

def redisSetex (r : List (String × RedisEntry)) (k : String) (ttl : Nat)
    (v : Token) : List (String × RedisEntry) :=
  (k, ⟨ttl, v⟩) :: r.filter (fun e => !(e.1 == k))

def redisGetEntry (r : List (String × RedisEntry)) (k : String) :
    Option RedisEntry :=
  (r.find? (fun e => e.1 == k)).map (fun e => e.2)

def redisGet (r : List (String × RedisEntry)) (k : String) : Option Token :=
  (redisGetEntry r k).map (fun e => e.value)

def redisDel (r : List (String × RedisEntry)) (k : String) :
    List (String × RedisEntry) :=
  r.filter (fun e => !(e.1 == k))

/-- Number of live entries under a key; redis keys are unique so this is the
"number of session records" for a subject. -/
def redisKeyCount (r : List (String × RedisEntry)) (k : String) : Nat :=
  (r.filter (fun e => e.1 == k)).length

/-! ## Auth service endpoints (services/auth-service/main.py) -/

structure AuthSettings where
  jwt_secret : String
  jwt_algorithm : String
  jwt_expire_minutes : Nat
deriving DecidableEq, Repr

structure AuthState where
  users : List UserRec
  redis : List (String × RedisEntry)
deriving DecidableEq, Repr

/-- An `HTTPException(status_code, detail)` surfaced at the HTTP boundary. -/
structure HErr where
  status : Nat
  detail : String
deriving DecidableEq, Repr

structure UserLogin where
  username : String
  password : String
deriving DecidableEq, Repr

/-- The identifier lookup at the top of `login_user`: by username first,
by email only if the username lookup found nothing. -/
def lookupUser (users : List UserRec) (identifier : String) : Option UserRec :=
  match get_by_username users identifier with
  | some u => some u
  | none => get_by_email users identifier

/-- `POST /login`: authenticate and return (token, expires_in seconds) plus
the updated world state (last-login timestamp, redis session entry). -/
def login_user (cfg : AuthSettings) (ld : UserLogin) (st : AuthState)
    (now : Nat) : Except HErr (Token × Nat × AuthState) :=
  match lookupUser st.users ld.username with
  | none => Except.error ⟨401, "Invalid credentials"⟩
  | some u =>
    if ¬ verify_password ld.password u.password_hash then
      Except.error ⟨401, "Invalid credentials"⟩
    else if ¬ u.is_active then
      Except.error ⟨401, "Account is disabled"⟩
    else
      let token_data : TokenData := ⟨u.id, u.username, u.email, u.role⟩
      let access_token :=
        create_access_token token_data cfg.jwt_secret cfg.jwt_algorithm now
          (cfg.jwt_expire_minutes * 60)
      let users1 := update_last_login st.users u.id now
      let redis1 :=
        redisSetex st.redis ("token:" ++ u.id) (cfg.jwt_expire_minutes * 60)
          access_token
      Except.ok (access_token, cfg.jwt_expire_minutes * 60, ⟨users1, redis1⟩)

/-- `POST /logout`: decode (any `PyJWTError`, expiry included, yields `None`
hence 401), then delete the subject's redis entry. -/
def logout_user (cfg : AuthSettings) (token : Token) (st : AuthState)
    (now : Nat) : Except HErr AuthState :=
  match verify_token token cfg.jwt_secret cfg.jwt_algorithm now with
  | none => Except.error ⟨401, "Invalid token"⟩
  | some payload =>
      Except.ok ⟨st.users, redisDel st.redis ("token:" ++ payload.sub)⟩

/-- `GET /verify`: decode, compare against the stored session token, load the
identity record, check the active flag. -/
def verify_token_endpoint (cfg : AuthSettings) (token : Token) (st : AuthState)
    (now : Nat) : Except HErr UserRec :=
  match verify_token token cfg.jwt_secret cfg.jwt_algorithm now with
  | none => Except.error ⟨401, "Invalid token"⟩
  | some payload =>
      match redisGet st.redis ("token:" ++ payload.sub) with
      | none => Except.error ⟨401, "Token not found or expired"⟩
      | some stored =>
          if stored ≠ token then
            Except.error ⟨401, "Token not found or expired"⟩
          else
            match crud_get st.users payload.sub with
            | none => Except.error ⟨404, "User not found"⟩
            | some u =>
                if ¬ u.is_active then
                  Except.error ⟨401, "Account is disabled"⟩
                else
                  Except.ok u

/-! ## Email validation (shared/utils validate_email)

The regex is `[a-zA-Z0-9._%+-]+@[a-zA-Z0-9.-]+\.[a-zA-Z]{2,}` anchored at
both ends.  The trailing component `[a-zA-Z]{2,}` contains no dot, so the
literal dot of the pattern must match the last dot of the domain part; the
matcher below splits there. -/

def isLocalChar (c : Char) : Bool :=
  c.isAlphanum || c == '.' || c == '_' || c == '%' || c == '+' || c == '-'

def isDomainChar (c : Char) : Bool :=
  c.isAlphanum || c == '.' || c == '-'

/-- `str.split(sep)` for a one-character separator (so `"a@@b"` gives three
pieces, like Python). -/
def splitOnChar (c : Char) : List Char → List (List Char)
  | [] => [[]]
  | x :: xs =>
      match splitOnChar c xs with
      | [] => [[]]
      | y :: ys => if x == c then [] :: y :: ys else (x :: y) :: ys

def validate_email (s : String) : Bool :=
  match splitOnChar '@' s.toList with
  | [loc, dom] =>
      match (splitOnChar '.' dom).reverse with
      | tld :: d :: rest =>
          let b := List.intercalate ['.'] (d :: rest).reverse
          !loc.isEmpty && loc.all isLocalChar &&
          !b.isEmpty && b.all isDomainChar &&
          decide (2 ≤ tld.length) && tld.all Char.isAlpha
      | _ => false
  | _ => false

/-- `POST /register`: email format check, duplicate email check, duplicate
username check, then persist the new identity record. -/
def register_user (uc : UserCreate) (st : AuthState) (new_id : String)
    (now : Nat) : Except HErr AuthState :=
  if ¬ validate_email uc.email then
    Except.error ⟨400, "Invalid email format"⟩
  else
    match get_by_email st.users uc.email with
    | some _ => Except.error ⟨400, "Email already registered"⟩
    | none =>
        match get_by_username st.users uc.username with
        | some _ => Except.error ⟨400, "Username already taken"⟩
        | none => Except.ok ⟨crud_create st.users uc new_id now, st.redis⟩

/-! ## API gateway (services/api-gateway/main.py)

The downstream network is a parameter: a function from the forwarded
request to the outcome observed by the httpx call (a response, a
`TimeoutException`, a `ConnectError`, or any other exception).  The shared
`app.state.http_client` is modelled by its open/closed state: the code
enters it with `async with`, whose exit closes the client; entering a
closed client (or sending on one) raises a `RuntimeError`, which the
handler's generic `except Exception` turns into a 500. -/

inductive Json where
  | null
  | bool (b : Bool)
  | num (n : Int)
  | str (s : String)
  | arr (xs : List Json)
  | obj (fields : List (String × Json))

/-- The raw bytes of an HTTP body, classified by what `response.json()`
does with them: empty (falsy `response.content`), a valid JSON document
carrying its parse, or non-empty bytes that fail to parse. -/
inductive RawBody where
  | empty
  | jsonBody (j : Json)
  | invalid (s : String)

structure GatewayRequest where
  method : String
  headers : List (String × String)
  query_params : List (String × String)
  body : String

structure BackendRequest where
  method : String
  url : String
  headers : List (String × String)
  content : Option String
  params : List (String × String)

structure BackendResponse where
  status : Nat
  body : RawBody
  headers : List (String × String)

inductive NetOutcome where
  | success (resp : BackendResponse)
  | timeoutErr
  | connectErr
  | otherErr (msg : String)

structure HttpClient where
  is_closed : Bool
deriving DecidableEq, Repr

/-- What the gateway sends back: either the `JSONResponse` relaying a
backend response (its content is the parsed JSON document handed to
`JSONResponse`), or the uniform error envelope produced from an
`HTTPException` by the exception handler. -/
inductive GatewayResponse where
  | relayed (status : Nat) (content : Json) (headers : List (String × String))
  | errorEnvelope (status : Nat) (message : String)

def GatewayResponse.statusCode : GatewayResponse → Nat
  | GatewayResponse.relayed s _ _ => s
  | GatewayResponse.errorEnvelope s _ => s

def GatewayResponse.isRelayed : GatewayResponse → Bool
  | GatewayResponse.relayed _ _ _ => true
  | GatewayResponse.errorEnvelope _ _ => false

/-- The request `proxy_request` hands to the httpx client: same method,
headers with the hop-specific `host` header popped, the body only for
POST/PUT/PATCH, same query params, URL = target base concatenated with
the remainder path. -/
def forwardedRequest (req : GatewayRequest) (target_url : String)
    (path : String) : BackendRequest :=
  { method := req.method
    url := target_url ++ path
    headers := req.headers.filter (fun h => !(h.1 == "host"))
    content :=
      if req.method == "POST" || req.method == "PUT" || req.method == "PATCH" then
        some req.body
      else
        none
    params := req.query_params }

def proxy_request (client : HttpClient) (net : BackendRequest → NetOutcome)
    (req : GatewayRequest) (target_url : String) (path : String) :
    GatewayResponse × HttpClient :=
  if client.is_closed then
    (GatewayResponse.errorEnvelope 500 "Internal server error", client)
  else
    let closed : HttpClient := ⟨true⟩
    match net (forwardedRequest req target_url path) with
    | NetOutcome.success resp =>
        match resp.body with
        | RawBody.empty =>
            (GatewayResponse.relayed resp.status (Json.obj []) resp.headers, closed)
        | RawBody.jsonBody j =>
            (GatewayResponse.relayed resp.status j resp.headers, closed)
        | RawBody.invalid _ =>
            (GatewayResponse.errorEnvelope 500 "Internal server error", closed)
    | NetOutcome.timeoutErr =>
        (GatewayResponse.errorEnvelope 504 "Service timeout", closed)
    | NetOutcome.connectErr =>
        (GatewayResponse.errorEnvelope 503 "Service unavailable", closed)
    | NetOutcome.otherErr _ =>
        (GatewayResponse.errorEnvelope 500 "Internal server error", closed)

/-- `SERVICE_ROUTES`, in declaration order of the source dict. -/
def SERVICE_ROUTES : List (String × String) :=
  [("/api/v1/auth", "http://auth-service:8001"),
   ("/api/v1/files", "http://file-service:8002"),
   ("/api/v1/webodm", "http://webodm-service:8003"),
   ("/api/v1/gee", "http://gee-service:8004"),
   ("/api/v1/processing", "http://processing-service:8005"),
   ("/api/v1/analysis", "http://analysis-service:8006"),
   ("/api/v1/visualization", "http://visualization-service:8007")]

/-- Python `request_path.startswith(route_prefix)`. -/
def startswith (pfx s : String) : Bool :=
  pfx.toList.isPrefixOf s.toList

/-- Python `request_path[n:]` (slice from character index n). -/
def strDrop (s : String) (n : Nat) : String :=
  ⟨s.toList.drop n⟩

/-- The route-matching loop of `api_proxy`: first declared entry whose
prefix literally starts the request path wins; the remainder is the path
with that prefix stripped. -/
def resolveRoute (routes : List (String × String)) (request_path : String) :
    Option (String × String) :=
  match routes with
  | [] => none
  | (pfx, url) :: rest =>
      if startswith pfx request_path then
        some (url, strDrop request_path pfx.length)
      else
        resolveRoute rest request_path

/-- Modelled from the spec: `resolve` as section 4.4 words it — return the
first declared entry whose prefix is a literal prefix of the request path,
paired with the stripped remainder.  Compared against the source's matching
loop `resolveRoute`. -/
def resolveSpec (routes : List (String × String)) (request_path : String) :
    Option (String × String) :=
  match routes.find? (fun e => startswith e.1 request_path) with
  | none => none
  | some (pfx, url) => some (url, strDrop request_path pfx.length)

/-- `api_proxy`: rebuild the full request path, resolve it against the route
table, 404 without touching the network on no match, otherwise proxy. -/
def api_proxy (routes : List (String × String)) (client : HttpClient)
    (net : BackendRequest → NetOutcome) (req : GatewayRequest) (path : String) :
    GatewayResponse × HttpClient :=
  let request_path := "/api/v1/" ++ path
  match resolveRoute routes request_path with
  | none => (GatewayResponse.errorEnvelope 404 "Service not found", client)
  | some (target, service_path) =>
      proxy_request client net req target service_path

/-! ## Concrete fixtures used by witnesses and counterexamples -/

def demoCfg : AuthSettings := ⟨"topsecret", "HS256", 1440⟩

def demoAlice : UserRec :=
  ⟨"u1", "alice@x.com", "alice", none, hash_password "pw123", UserRole.viewer,
   true, 0, none, none⟩

/-- A deactivated account. -/
def demoBob : UserRec :=
  ⟨"u2", "bob@x.com", "bob", none, hash_password "pw456", UserRole.viewer,
   false, 0, none, none⟩

def demoState : AuthState := ⟨[demoAlice, demoBob], []⟩

/-- The token a login for alice at time 100 issues under `demoCfg`. -/
def demoAliceToken : Token :=
  Token.signed ⟨"u1", "alice", "alice@x.com", UserRole.viewer, 100 + 1440 * 60⟩
    "topsecret" "HS256"

/-- The token a login for alice at time 200 issues under `demoCfg`. -/
def demoAliceToken2 : Token :=
  Token.signed ⟨"u1", "alice", "alice@x.com", UserRole.viewer, 200 + 1440 * 60⟩
    "topsecret" "HS256"

/-- World after alice's login at time 100. -/
def demoStateAfter1 : AuthState :=
  ⟨[{ demoAlice with last_login := some 100 }, demoBob],
   [("token:u1", ⟨1440 * 60, demoAliceToken⟩)]⟩

/-- World after a second login for alice at time 200. -/
def demoStateAfter2 : AuthState :=
  ⟨[{ demoAlice with last_login := some 200 }, demoBob],
   [("token:u1", ⟨1440 * 60, demoAliceToken2⟩)]⟩

/-- A well-signed, unexpired token for the deactivated account bob. -/
def demoBobToken : Token :=
  Token.signed ⟨"u2", "bob", "bob@x.com", UserRole.viewer, 100 + 1440 * 60⟩
    "topsecret" "HS256"

/-- A state in which the deactivated bob still holds a session entry. -/
def demoBobSessionState : AuthState :=
  ⟨[demoAlice, demoBob], [("token:u2", ⟨1440 * 60, demoBobToken⟩)]⟩

/-- A token for alice whose signature is valid for `demoCfg` but whose
expiry (50) has elapsed at time 100. -/
def demoExpiredToken : Token :=
  Token.signed ⟨"u1", "alice", "alice@x.com", UserRole.viewer, 50⟩
    "topsecret" "HS256"

/-- A live session entry holding the expired token (as after its TTL were
still pending): the subject alice still has a session record to clean up. -/
def demoExpiredSessionState : AuthState :=
  ⟨[demoAlice, demoBob], [("token:u1", ⟨1440 * 60, demoExpiredToken⟩)]⟩

def demoGetReq : GatewayRequest := ⟨"GET", [("host", "gw"), ("accept", "*")], [], ""⟩

def demoPostReq : GatewayRequest :=
  ⟨"POST", [("host", "gw"), ("accept", "*")], [("q", "1")], "payload-bytes"⟩

/-- A backend that answers 200 with an empty JSON object body. -/
def netOkEmpty : BackendRequest → NetOutcome :=
  fun _ => NetOutcome.success ⟨200, RawBody.jsonBody (Json.obj []), []⟩

/-- A backend that answers 200 with a non-JSON body. -/
def netNonJson : BackendRequest → NetOutcome :=
  fun _ => NetOutcome.success ⟨200, RawBody.invalid "hello", [("x", "y")]⟩

def netConnectFail : BackendRequest → NetOutcome :=
  fun _ => NetOutcome.connectErr

def netTimeout : BackendRequest → NetOutcome :=
  fun _ => NetOutcome.timeoutErr

/-! ## Helper lemmas about the revocation store -/

theorem redisGetEntry_setex_self (r : List (String × RedisEntry)) (k : String)
    (ttl : Nat) (v : Token) :
    redisGetEntry (redisSetex r k ttl v) k = some ⟨ttl, v⟩ := by
  simp [redisSetex, redisGetEntry]

theorem redisGet_setex_self (r : List (String × RedisEntry)) (k : String)
    (ttl : Nat) (v : Token) :
    redisGet (redisSetex r k ttl v) k = some v := by
  simp [redisGet, redisGetEntry_setex_self]

theorem filter_ne_key_no_match (r : List (String × RedisEntry)) (k : String) :
    (r.filter (fun e => !(e.1 == k))).filter (fun e => e.1 == k) = [] := by
  induction r with
  | nil => rfl
  | cons a t ih =>
      by_cases h : a.1 == k
      · simp [List.filter_cons, h, ih]
      · simp [List.filter_cons, h, ih]

theorem redisKeyCount_setex_self (r : List (String × RedisEntry)) (k : String)
    (ttl : Nat) (v : Token) :
    redisKeyCount (redisSetex r k ttl v) k = 1 := by
  simp [redisKeyCount, redisSetex, List.filter_cons, filter_ne_key_no_match]

theorem redisGetEntry_del_self (r : List (String × RedisEntry)) (k : String) :
    redisGetEntry (redisDel r k) k = none := by
  simp only [redisGetEntry, redisDel]
  induction r with
  | nil => rfl
  | cons a t ih =>
      by_cases h : a.1 == k
      · simp [List.filter_cons, h, ih]
      · simp [List.filter_cons, h, List.find?, ih]

theorem redisGet_del_self (r : List (String × RedisEntry)) (k : String) :
    redisGet (redisDel r k) k = none := by
  simp [redisGet, redisGetEntry_del_self]

theorem redisDel_del_self (r : List (String × RedisEntry)) (k : String) :
    redisDel (redisDel r k) k = redisDel r k := by
  simp only [redisDel]
  induction r with
  | nil => rfl
  | cons a t ih =>
      by_cases h : a.1 == k
      · simp [List.filter_cons, h, ih]
      · simp [List.filter_cons, h, ih]

/-! ## Helper lemmas about the token codec and the endpoints -/

theorem verify_token_some_inv {t : Token} {sk a : String} {n : Nat}
    {p : TokenPayload} (h : verify_token t sk a n = some p) :
    t = Token.signed p sk a ∧ n < p.exp := by
  cases t with
  | malformed r => simp [verify_token] at h
  | signed p' s' a' =>
      by_cases hc : s' = sk ∧ a' = a ∧ n < p'.exp
      · obtain ⟨h1, h2, h3⟩ := hc
        simp [verify_token, h1, h2, h3] at h
        subst h h1 h2
        exact ⟨rfl, h3⟩
      · simp [verify_token, hc] at h

theorem login_user_active (cfg : AuthSettings) (ld : UserLogin) (st : AuthState)
    (now : Nat) (u : UserRec)
    (hu : lookupUser st.users ld.username = some u)
    (hp : verify_password ld.password u.password_hash = true)
    (ha : u.is_active = true) :
    login_user cfg ld st now = Except.ok
      (Token.signed ⟨u.id, u.username, u.email, u.role,
          now + cfg.jwt_expire_minutes * 60⟩ cfg.jwt_secret cfg.jwt_algorithm,
       cfg.jwt_expire_minutes * 60,
       ⟨update_last_login st.users u.id now,
        redisSetex st.redis ("token:" ++ u.id) (cfg.jwt_expire_minutes * 60)
          (Token.signed ⟨u.id, u.username, u.email, u.role,
            now + cfg.jwt_expire_minutes * 60⟩ cfg.jwt_secret cfg.jwt_algorithm)⟩) := by
  simp [login_user, hu, hp, ha, create_access_token]

theorem login_user_ok_inv {cfg : AuthSettings} {ld : UserLogin} {st : AuthState}
    {now : Nat} {t : Token} {e : Nat} {st' : AuthState}
    (h : login_user cfg ld st now = Except.ok (t, e, st')) :
    ∃ u, lookupUser st.users ld.username = some u ∧
      verify_password ld.password u.password_hash = true ∧
      u.is_active = true ∧
      t = Token.signed ⟨u.id, u.username, u.email, u.role,
            now + cfg.jwt_expire_minutes * 60⟩ cfg.jwt_secret cfg.jwt_algorithm ∧
      e = cfg.jwt_expire_minutes * 60 ∧
      st' = ⟨update_last_login st.users u.id now,
        redisSetex st.redis ("token:" ++ u.id) (cfg.jwt_expire_minutes * 60) t⟩ := by
  unfold login_user at h
  cases hu : lookupUser st.users ld.username with
  | none => rw [hu] at h; simp at h
  | some u =>
      rw [hu] at h
      by_cases hp : verify_password ld.password u.password_hash
      · by_cases ha : u.is_active
        · simp only [hp, ha, not_true, if_false, if_neg, create_access_token,
            Bool.not_eq_true] at h
          refine ⟨u, rfl, hp, ha, ?_⟩
          simp [create_access_token, hp, ha] at h
          obtain ⟨h1, h2, h3⟩ := h
          exact ⟨h1.symm, h2.symm, by rw [← h3, ← h1]⟩
        · simp [hp, ha] at h
      · simp [hp] at h

theorem logout_user_ok_inv {cfg : AuthSettings} {t : Token} {st st1 : AuthState}
    {now : Nat} (h : logout_user cfg t st now = Except.ok st1) :
    ∃ p, verify_token t cfg.jwt_secret cfg.jwt_algorithm now = some p ∧
      st1 = ⟨st.users, redisDel st.redis ("token:" ++ p.sub)⟩ := by
  unfold logout_user at h
  cases hv : verify_token t cfg.jwt_secret cfg.jwt_algorithm now with
  | none => rw [hv] at h; simp at h
  | some p =>
      rw [hv] at h
      simp at h
      exact ⟨p, rfl, h.symm⟩

theorem resolveRoute_eq_spec (routes : List (String × String)) (p : String) :
    resolveRoute routes p = resolveSpec routes p := by
  induction routes with
  | nil => rfl
  | cons a rest ih =>
      obtain ⟨pfx, url⟩ := a
      by_cases h : startswith pfx p
      · simp [resolveRoute, resolveSpec, List.find?, h]
      · simp only [resolveRoute, resolveSpec, List.find?, h, if_neg,
          Bool.false_eq_true, not_false_iff] at ih ⊢
        simpa [h] using ih

/-! ## Claim C1 -/

/-- Claim C1: `GET /verify` — a token whose decode fails (bad signature,
malformed structure, or elapsed expiry) is rejected with status 401;
otherwise the revocation-store entry `token:{sub}` for the token's subject
is fetched and the call is rejected with 401 if the entry is absent or its
value differs from the presented token; otherwise the identity record is
loaded: a missing record gives 404 (NotFoundError), an inactive account
gives 401, and an active account's record is returned.  The last two
conjuncts instantiate decode failure for a wrong-secret token and an
expired token, so all four failure scenarios of the claim — wrong secret,
elapsed expiry, no session entry, deactivated account — surface the same
error kind, status 401. -/
theorem verify_endpoint_contract (cfg : AuthSettings) (t : Token)
    (st : AuthState) (now : Nat) :
    (verify_token t cfg.jwt_secret cfg.jwt_algorithm now = none →
      verify_token_endpoint cfg t st now = Except.error ⟨401, "Invalid token"⟩)
    ∧ (∀ p, verify_token t cfg.jwt_secret cfg.jwt_algorithm now = some p →
        redisGet st.redis ("token:" ++ p.sub) = none →
        verify_token_endpoint cfg t st now =
          Except.error ⟨401, "Token not found or expired"⟩)
    ∧ (∀ p s, verify_token t cfg.jwt_secret cfg.jwt_algorithm now = some p →
        redisGet st.redis ("token:" ++ p.sub) = some s → s ≠ t →
        verify_token_endpoint cfg t st now =
          Except.error ⟨401, "Token not found or expired"⟩)
    ∧ (∀ p, verify_token t cfg.jwt_secret cfg.jwt_algorithm now = some p →
        redisGet st.redis ("token:" ++ p.sub) = some t →
        crud_get st.users p.sub = none →
        verify_token_endpoint cfg t st now =
          Except.error ⟨404, "User not found"⟩)
    ∧ (∀ p u, verify_token t cfg.jwt_secret cfg.jwt_algorithm now = some p →
        redisGet st.redis ("token:" ++ p.sub) = some t →
        crud_get st.users p.sub = some u → u.is_active = false →
        verify_token_endpoint cfg t st now =
          Except.error ⟨401, "Account is disabled"⟩)
    ∧ (∀ p u, verify_token t cfg.jwt_secret cfg.jwt_algorithm now = some p →
        redisGet st.redis ("token:" ++ p.sub) = some t →
        crud_get st.users p.sub = some u → u.is_active = true →
        verify_token_endpoint cfg t st now = Except.ok u)
    ∧ (∀ (pl : TokenPayload) (sk alg2 : String), sk ≠ cfg.jwt_secret →
        verify_token_endpoint cfg (Token.signed pl sk alg2) st now =
          Except.error ⟨401, "Invalid token"⟩)
    ∧ (∀ pl : TokenPayload, pl.exp ≤ now →
        verify_token_endpoint cfg
            (Token.signed pl cfg.jwt_secret cfg.jwt_algorithm) st now =
          Except.error ⟨401, "Invalid token"⟩) := by
  refine ⟨?_, ?_, ?_, ?_, ?_, ?_, ?_, ?_⟩
  · intro h; simp [verify_token_endpoint, h]
  · intro p h hr; simp [verify_token_endpoint, h, hr]
  · intro p s h hr hne; simp [verify_token_endpoint, h, hr, hne]
  · intro p h hr hg; simp [verify_token_endpoint, h, hr, hg]
  · intro p u h hr hg ha; simp [verify_token_endpoint, h, hr, hg, ha]
  · intro p u h hr hg ha; simp [verify_token_endpoint, h, hr, hg, ha]
  · intro pl sk alg2 hsk
    have hc : ¬ (sk = cfg.jwt_secret ∧ alg2 = cfg.jwt_algorithm ∧ now < pl.exp) :=
      fun hh => hsk hh.1
    have hv : verify_token (Token.signed pl sk alg2) cfg.jwt_secret
        cfg.jwt_algorithm now = none := by
      simp [verify_token, hc]
    simp [verify_token_endpoint, hv]
  · intro pl hexp
    have hc : ¬ (now < pl.exp) := Nat.not_lt.mpr hexp
    have hv : verify_token (Token.signed pl cfg.jwt_secret cfg.jwt_algorithm)
        cfg.jwt_secret cfg.jwt_algorithm now = none := by
      simp [verify_token, hc]
    simp [verify_token_endpoint, hv]

/-- Witness for C1 at concrete inputs: a live session verifies to alice's
record, while a malformed token, a wrong-secret token, an expired token, a
valid token with no session entry, and the deactivated account's token all
fail — the last four with the same status 401. -/
theorem verify_endpoint_contract_witness :
    verify_token_endpoint demoCfg demoAliceToken demoStateAfter1 200 =
      Except.ok { demoAlice with last_login := some 100 }
    ∧ verify_token_endpoint demoCfg (Token.malformed "junk") demoStateAfter1 200 =
      Except.error ⟨401, "Invalid token"⟩
    ∧ verify_token_endpoint demoCfg
        (Token.signed ⟨"u1", "alice", "alice@x.com", UserRole.viewer, 86500⟩
          "other-secret" "HS256") demoStateAfter1 200 =
      Except.error ⟨401, "Invalid token"⟩
    ∧ verify_token_endpoint demoCfg demoExpiredToken demoStateAfter1 100 =
      Except.error ⟨401, "Invalid token"⟩
    ∧ verify_token_endpoint demoCfg demoAliceToken demoState 200 =
      Except.error ⟨401, "Token not found or expired"⟩
    ∧ verify_token_endpoint demoCfg demoBobToken demoBobSessionState 200 =
      Except.error ⟨401, "Account is disabled"⟩ := by
  refine ⟨?_, ?_, ?_, ?_, ?_, ?_⟩
  · exact (verify_endpoint_contract demoCfg demoAliceToken demoStateAfter1
      200).2.2.2.2.2.1 _ _ rfl rfl rfl rfl
  · exact (verify_endpoint_contract demoCfg (Token.malformed "junk")
      demoStateAfter1 200).1 rfl
  · exact (verify_endpoint_contract demoCfg
      (Token.signed ⟨"u1", "alice", "alice@x.com", UserRole.viewer, 86500⟩
        "other-secret" "HS256") demoStateAfter1 200).2.2.2.2.2.2.1 _ _ _
      (by decide)
  · exact (verify_endpoint_contract demoCfg demoExpiredToken demoStateAfter1
      100).2.2.2.2.2.2.2 ⟨"u1", "alice", "alice@x.com", UserRole.viewer, 50⟩
      (by decide)
  · exact (verify_endpoint_contract demoCfg demoAliceToken demoState 200).2.1
      _ rfl rfl
  · exact (verify_endpoint_contract demoCfg demoBobToken demoBobSessionState
      200).2.2.2.2.1 _ _ rfl rfl rfl rfl

/-! ## Claim C3 -/

/-- Claim C3: `POST /login` — the identity is looked up by username first
and by email only when the username lookup finds nothing; an unknown
identifier and a wrong password produce the identical generic 401
"Invalid credentials" error; a matched but deactivated account gives 401
"Account is disabled"; on success a token with the fixed expiry
`now + 60·jwt_expire_minutes` is issued, written to the revocation store
under the subject's key, the identity's last-login timestamp is set to
`now`, and the token is returned together with its TTL in seconds. -/
theorem login_contract (cfg : AuthSettings) (ld : UserLogin) (st : AuthState)
    (now : Nat) :
    (∀ u, get_by_username st.users ld.username = some u →
        lookupUser st.users ld.username = some u)
    ∧ (get_by_username st.users ld.username = none →
        lookupUser st.users ld.username = get_by_email st.users ld.username)
    ∧ (lookupUser st.users ld.username = none →
        login_user cfg ld st now = Except.error ⟨401, "Invalid credentials"⟩)
    ∧ (∀ u, lookupUser st.users ld.username = some u →
        verify_password ld.password u.password_hash = false →
        login_user cfg ld st now = Except.error ⟨401, "Invalid credentials"⟩)
    ∧ (∀ u, lookupUser st.users ld.username = some u →
        verify_password ld.password u.password_hash = true →
        u.is_active = false →
        login_user cfg ld st now = Except.error ⟨401, "Account is disabled"⟩)
    ∧ (∀ u, lookupUser st.users ld.username = some u →
        verify_password ld.password u.password_hash = true →
        u.is_active = true →
        login_user cfg ld st now = Except.ok
          (Token.signed ⟨u.id, u.username, u.email, u.role,
              now + cfg.jwt_expire_minutes * 60⟩ cfg.jwt_secret cfg.jwt_algorithm,
           cfg.jwt_expire_minutes * 60,
           ⟨update_last_login st.users u.id now,
            redisSetex st.redis ("token:" ++ u.id) (cfg.jwt_expire_minutes * 60)
              (Token.signed ⟨u.id, u.username, u.email, u.role,
                now + cfg.jwt_expire_minutes * 60⟩ cfg.jwt_secret
                cfg.jwt_algorithm)⟩)) := by
  refine ⟨?_, ?_, ?_, ?_, ?_, ?_⟩
  · intro u h; simp [lookupUser, h]
  · intro h; simp [lookupUser, h]
  · intro h; simp [login_user, h]
  · intro u h hp; simp [login_user, h, hp]
  · intro u h hp ha; simp [login_user, h, hp, ha]
  · intro u h hp ha; exact login_user_active cfg ld st now u h hp ha

/-- Witness for C3: alice logs in by username and by email with the same
outcome; an unknown identifier and a wrong password yield the identical
generic error; the deactivated bob gets "Account is disabled". -/
theorem login_contract_witness :
    login_user demoCfg ⟨"alice", "pw123"⟩ demoState 100 =
      Except.ok (demoAliceToken, 1440 * 60, demoStateAfter1)
    ∧ login_user demoCfg ⟨"alice@x.com", "pw123"⟩ demoState 100 =
      Except.ok (demoAliceToken, 1440 * 60, demoStateAfter1)
    ∧ login_user demoCfg ⟨"nobody", "pw123"⟩ demoState 100 =
      Except.error ⟨401, "Invalid credentials"⟩
    ∧ login_user demoCfg ⟨"alice", "wrong"⟩ demoState 100 =
      Except.error ⟨401, "Invalid credentials"⟩
    ∧ login_user demoCfg ⟨"bob", "pw456"⟩ demoState 100 =
      Except.error ⟨401, "Account is disabled"⟩ := by
  refine ⟨?_, ?_, ?_, ?_, ?_⟩
  · exact (login_contract demoCfg ⟨"alice", "pw123"⟩ demoState
      100).2.2.2.2.2 demoAlice rfl rfl rfl
  · exact (login_contract demoCfg ⟨"alice@x.com", "pw123"⟩ demoState
      100).2.2.2.2.2 demoAlice rfl rfl rfl
  · exact (login_contract demoCfg ⟨"nobody", "pw123"⟩ demoState 100).2.2.1 rfl
  · exact (login_contract demoCfg ⟨"alice", "wrong"⟩ demoState
      100).2.2.2.1 demoAlice rfl rfl
  · exact (login_contract demoCfg ⟨"bob", "pw456"⟩ demoState
      100).2.2.2.2.1 demoBob rfl rfl rfl

/-! ## Claim C4 -/

/-- Counterexample to claim C4 as stated: `demoExpiredToken` is signed with
the configured secret (it decodes at time 40, before its expiry 50), and
its subject still holds a session entry to clean up, yet at time 100 the
logout endpoint rejects it with 401 instead of deleting the entry — an
expiry-only decode failure is NOT tolerated, because `verify_token` maps
every `PyJWTError`, `ExpiredSignatureError` included, to `None`. -/
theorem logout_expired_token_rejected :
    verify_token demoExpiredToken demoCfg.jwt_secret demoCfg.jwt_algorithm 40 =
      some ⟨"u1", "alice", "alice@x.com", UserRole.viewer, 50⟩
    ∧ redisGetEntry demoExpiredSessionState.redis "token:u1" =
      some ⟨1440 * 60, demoExpiredToken⟩
    ∧ logout_user demoCfg demoExpiredToken demoExpiredSessionState 100 =
      Except.error ⟨401, "Invalid token"⟩ :=
  ⟨rfl, rfl, rfl⟩

/-- Claim C4 amended: logout succeeds — deleting the revocation-store
entry for the token's subject — exactly when the token fully decodes
(valid signature AND unexpired); any decode failure is rejected with 401,
including a token whose only defect is an elapsed expiry, and in
particular any token whose signature does not validate. -/
theorem logout_contract (cfg : AuthSettings) (t : Token) (st : AuthState)
    (now : Nat) :
    (verify_token t cfg.jwt_secret cfg.jwt_algorithm now = none →
      logout_user cfg t st now = Except.error ⟨401, "Invalid token"⟩)
    ∧ (∀ p, verify_token t cfg.jwt_secret cfg.jwt_algorithm now = some p →
        logout_user cfg t st now =
          Except.ok ⟨st.users, redisDel st.redis ("token:" ++ p.sub)⟩)
    ∧ (∀ pl : TokenPayload, pl.exp ≤ now →
        logout_user cfg (Token.signed pl cfg.jwt_secret cfg.jwt_algorithm)
          st now = Except.error ⟨401, "Invalid token"⟩)
    ∧ (∀ (pl : TokenPayload) (sk alg2 : String), sk ≠ cfg.jwt_secret →
        logout_user cfg (Token.signed pl sk alg2) st now =
          Except.error ⟨401, "Invalid token"⟩) := by
  refine ⟨?_, ?_, ?_, ?_⟩
  · intro h; simp [logout_user, h]
  · intro p h; simp [logout_user, h]
  · intro pl hexp
    have hc : ¬ (now < pl.exp) := Nat.not_lt.mpr hexp
    have hv : verify_token (Token.signed pl cfg.jwt_secret cfg.jwt_algorithm)
        cfg.jwt_secret cfg.jwt_algorithm now = none := by
      simp [verify_token, hc]
    simp [logout_user, hv]
  · intro pl sk alg2 hsk
    have hc : ¬ (sk = cfg.jwt_secret ∧ alg2 = cfg.jwt_algorithm ∧ now < pl.exp) :=
      fun hh => hsk hh.1
    have hv : verify_token (Token.signed pl sk alg2) cfg.jwt_secret
        cfg.jwt_algorithm now = none := by
      simp [verify_token, hc]
    simp [logout_user, hv]

/-- Witness for the amended C4: a live unexpired token logs out and
empties the session store; the expired-but-well-signed token is rejected
with 401. -/
theorem logout_contract_witness :
    logout_user demoCfg demoAliceToken demoStateAfter1 200 =
      Except.ok ⟨demoStateAfter1.users, []⟩
    ∧ logout_user demoCfg demoExpiredToken demoState 100 =
      Except.error ⟨401, "Invalid token"⟩ := by
  constructor
  · exact (logout_contract demoCfg demoAliceToken demoStateAfter1 200).2.1
      _ rfl
  · exact (logout_contract demoCfg demoExpiredToken demoState 100).2.2.1
      ⟨"u1", "alice", "alice@x.com", UserRole.viewer, 50⟩ (by decide)

/-! ## Claim C5 -/

/-- Claim C5: after a successful logout of a token, an immediate verify of
that same token fails with status 401 (the session entry is gone), and a
second logout of the same token still succeeds without changing anything
— logout is idempotent and deleting the now-absent entry raises no
error. -/
theorem logout_then_verify (cfg : AuthSettings) (t : Token) (st : AuthState)
    (now : Nat) (st1 : AuthState)
    (h : logout_user cfg t st now = Except.ok st1) :
    verify_token_endpoint cfg t st1 now =
      Except.error ⟨401, "Token not found or expired"⟩
    ∧ logout_user cfg t st1 now = Except.ok st1 := by
  obtain ⟨p, hv, hst⟩ := logout_user_ok_inv h
  subst hst
  constructor
  · simp [verify_token_endpoint, hv, redisGet_del_self]
  · simp [logout_user, hv, redisDel_del_self]

/-- Witness for C5: alice logs out at time 200; verifying her token right
away fails with 401 and logging out a second time still succeeds. -/
theorem logout_then_verify_witness :
    verify_token_endpoint demoCfg demoAliceToken ⟨demoStateAfter1.users, []⟩ 200 =
      Except.error ⟨401, "Token not found or expired"⟩
    ∧ logout_user demoCfg demoAliceToken ⟨demoStateAfter1.users, []⟩ 200 =
      Except.ok ⟨demoStateAfter1.users, []⟩ :=
  logout_then_verify demoCfg demoAliceToken demoStateAfter1 200
    ⟨demoStateAfter1.users, []⟩ rfl

/-! ## Claim C2 -/

/-- Claim C2: single-active-session invariant — a successful login
unconditionally overwrites the subject's session entry with the newly
issued token, so after a second login for the same subject the store holds
exactly one entry for that subject whose value is the second token, and
the first token (whenever it differs from the second, in particular
whenever the two logins happened at different times) fails verification
with status 401 at every time, expired or not. -/
theorem single_active_session (cfg : AuthSettings) (ld1 ld2 : UserLogin)
    (st st1 st2 : AuthState) (now1 now2 : Nat) (t1 t2 : Token) (e1 e2 : Nat)
    (_h1 : login_user cfg ld1 st now1 = Except.ok (t1, e1, st1))
    (h2 : login_user cfg ld2 st1 now2 = Except.ok (t2, e2, st2))
    (hsub : tokenSub t1 = tokenSub t2) :
    redisGet st2.redis ("token:" ++ tokenSub t1) = some t2
    ∧ redisKeyCount st2.redis ("token:" ++ tokenSub t1) = 1
    ∧ (t1 ≠ t2 → ∀ now3 : Nat, ∃ d : String,
        verify_token_endpoint cfg t1 st2 now3 = Except.error ⟨401, d⟩) := by
  obtain ⟨u2, hu2, hp2, ha2, ht2, he2, hst2⟩ := login_user_ok_inv h2
  have hsub2 : tokenSub t2 = u2.id := by rw [ht2]; rfl
  subst hst2
  rw [hsub, hsub2]
  refine ⟨redisGet_setex_self _ _ _ _, redisKeyCount_setex_self _ _ _ _, ?_⟩
  intro hne now3
  cases hv : verify_token t1 cfg.jwt_secret cfg.jwt_algorithm now3 with
  | none => exact ⟨"Invalid token", by simp [verify_token_endpoint, hv]⟩
  | some p =>
      have hp : t1 = Token.signed p cfg.jwt_secret cfg.jwt_algorithm :=
        (verify_token_some_inv hv).1
      have hps : p.sub = u2.id := by
        have : tokenSub t1 = p.sub := by rw [hp]; rfl
        rw [← this, hsub, hsub2]
      refine ⟨"Token not found or expired", ?_⟩
      have hget : redisGet (redisSetex st1.redis ("token:" ++ u2.id)
          (cfg.jwt_expire_minutes * 60) t2) ("token:" ++ p.sub) = some t2 := by
        rw [hps]; exact redisGet_setex_self _ _ _ _
      have hne2 : t2 ≠ t1 := fun hh => hne hh.symm
      simp [verify_token_endpoint, hv, hget, hne2]

/-- Witness for C2: alice logs in at time 100 and again at time 200; the
store then maps her key to the second token only, and the first (still
unexpired at time 300) fails verification. -/
theorem single_active_session_witness :
    redisGet demoStateAfter2.redis ("token:" ++ tokenSub demoAliceToken) =
      some demoAliceToken2
    ∧ redisKeyCount demoStateAfter2.redis ("token:" ++ tokenSub demoAliceToken) = 1
    ∧ ∃ d : String, verify_token_endpoint demoCfg demoAliceToken
        demoStateAfter2 300 = Except.error ⟨401, d⟩ := by
  have h := single_active_session demoCfg ⟨"alice", "pw123"⟩ ⟨"alice", "pw123"⟩
    demoState demoStateAfter1 demoStateAfter2 100 200 demoAliceToken
    demoAliceToken2 (1440 * 60) (1440 * 60) rfl rfl rfl
  exact ⟨h.1, h.2.1, h.2.2 (by decide) 300⟩

/-! ## Claim C6 -/

/-- Claim C6: route resolution iterates the declared entries in their
fixed configuration order and returns the first whose prefix literally
starts the request path, with the remainder being the path with that
prefix stripped (`resolveRoute` agrees with the spec-modelled
`resolveSpec`); when nothing matches, the dispatcher answers 404 "Service
not found" for every possible backend behaviour, i.e. without contacting
any backend; and resolving "/api/v1/files/42" against a table declaring
"/api/v1/files" before "/api/v1/file" yields the former's backend with
remainder "/42". -/
theorem route_resolution (routes : List (String × String)) (client : HttpClient)
    (net : BackendRequest → NetOutcome) (req : GatewayRequest) (path : String) :
    resolveRoute routes ("/api/v1/" ++ path) = resolveSpec routes ("/api/v1/" ++ path)
    ∧ (resolveRoute routes ("/api/v1/" ++ path) = none →
        api_proxy routes client net req path =
          (GatewayResponse.errorEnvelope 404 "Service not found", client))
    ∧ resolveRoute [("/api/v1/files", "A"), ("/api/v1/file", "B")]
        "/api/v1/files/42" = some ("A", "/42") := by
  refine ⟨resolveRoute_eq_spec _ _, ?_, by decide⟩
  intro h
  simp [api_proxy, h]

/-- Witness for C6: an empty route table resolves nothing, and the
dispatcher then returns 404 without the (healthy) backend being reached. -/
theorem route_resolution_witness :
    api_proxy [] ⟨false⟩ netOkEmpty demoGetReq "files/42" =
      (GatewayResponse.errorEnvelope 404 "Service not found", ⟨false⟩) :=
  (route_resolution [] ⟨false⟩ netOkEmpty demoGetReq "files/42").2.1 rfl

/-! ## Claim C7 -/

/-- Claim C7 (evidence of the code bug): a downstream connect failure is
translated to 503 "Service unavailable" and a timeout to 504 "Service
timeout" — but each dispatch runs `async with app.state.http_client`,
whose exit closes the shared client, so the very next proxied request
(here one whose backend would answer 200 with a JSON body) is rejected
with the generic 500 instead of being served: after either failure the
gateway is NOT able to serve a subsequent unrelated request. -/
theorem gateway_unavailable_after_first_dispatch :
    (api_proxy SERVICE_ROUTES ⟨false⟩ netConnectFail demoGetReq "auth/login").1 =
      GatewayResponse.errorEnvelope 503 "Service unavailable"
    ∧ (api_proxy SERVICE_ROUTES ⟨false⟩ netTimeout demoGetReq "auth/login").1 =
      GatewayResponse.errorEnvelope 504 "Service timeout"
    ∧ (api_proxy SERVICE_ROUTES
        (api_proxy SERVICE_ROUTES ⟨false⟩ netConnectFail demoGetReq "auth/login").2
        netOkEmpty demoGetReq "files/1").1 =
      GatewayResponse.errorEnvelope 500 "Internal server error"
    ∧ (api_proxy SERVICE_ROUTES
        (api_proxy SERVICE_ROUTES ⟨false⟩ netTimeout demoGetReq "auth/login").2
        netOkEmpty demoGetReq "files/1").1 =
      GatewayResponse.errorEnvelope 500 "Internal server error" :=
  ⟨rfl, rfl, rfl, rfl⟩

/-! ## Claim C8 -/

/-- Counterexample to claim C8 as stated: the backend answers status 200
with the non-JSON body "hello", but the gateway does not relay that
status/body — `response.json()` raises, the generic handler turns it into
a 500 error envelope. -/
theorem proxy_mangles_non_json_body :
    netNonJson (forwardedRequest demoGetReq "http://file-service:8002" "/1") =
      NetOutcome.success ⟨200, RawBody.invalid "hello", [("x", "y")]⟩
    ∧ (proxy_request ⟨false⟩ netNonJson demoGetReq
        "http://file-service:8002" "/1").1 =
      GatewayResponse.errorEnvelope 500 "Internal server error"
    ∧ (proxy_request ⟨false⟩ netNonJson demoGetReq
        "http://file-service:8002" "/1").1.statusCode ≠ 200 :=
  ⟨rfl, rfl, by decide⟩

/-- Claim C8 amended: the gateway forwards the method, the query
parameters and the URL `{backend}{remainder}` verbatim, strips only the
`host` header, and forwards the body only for POST/PUT/PATCH; the
backend's status code and headers are relayed, with the body re-serialized
from its JSON parse — an empty backend body is replaced by the empty JSON
object, and a non-empty body that is not valid JSON is turned into a 500
"Internal server error" response rather than being relayed. -/
theorem proxy_forward_contract (client : HttpClient)
    (net : BackendRequest → NetOutcome) (req : GatewayRequest)
    (target path : String) (h : client.is_closed = false) :
    (forwardedRequest req target path).method = req.method
    ∧ (forwardedRequest req target path).url = target ++ path
    ∧ (forwardedRequest req target path).params = req.query_params
    ∧ (forwardedRequest req target path).headers =
        req.headers.filter (fun e => !(e.1 == "host"))
    ∧ ((req.method = "POST" ∨ req.method = "PUT" ∨ req.method = "PATCH") →
        (forwardedRequest req target path).content = some req.body)
    ∧ (∀ resp j, net (forwardedRequest req target path) = NetOutcome.success resp →
        resp.body = RawBody.jsonBody j →
        proxy_request client net req target path =
          (GatewayResponse.relayed resp.status j resp.headers, ⟨true⟩))
    ∧ (∀ resp, net (forwardedRequest req target path) = NetOutcome.success resp →
        resp.body = RawBody.empty →
        proxy_request client net req target path =
          (GatewayResponse.relayed resp.status (Json.obj []) resp.headers, ⟨true⟩))
    ∧ (∀ resp s, net (forwardedRequest req target path) = NetOutcome.success resp →
        resp.body = RawBody.invalid s →
        proxy_request client net req target path =
          (GatewayResponse.errorEnvelope 500 "Internal server error", ⟨true⟩)) := by
  refine ⟨rfl, rfl, rfl, rfl, ?_, ?_, ?_, ?_⟩
  · rintro (hm | hm | hm) <;> simp [forwardedRequest, hm]
  · intro resp j hn hb; simp [proxy_request, h, hn, hb]
  · intro resp hn hb; simp [proxy_request, h, hn, hb]
  · intro resp s hn hb; simp [proxy_request, h, hn, hb]

/-- Witness for the amended C8: a POST is forwarded with its body, and the
backend's 200/empty-object response is relayed with status 200. -/
theorem proxy_forward_contract_witness :
    proxy_request ⟨false⟩ netOkEmpty demoPostReq "http://auth-service:8001"
      "/login" = (GatewayResponse.relayed 200 (Json.obj []) [], ⟨true⟩)
    ∧ (forwardedRequest demoPostReq "http://auth-service:8001" "/login").content =
      some "payload-bytes" := by
  constructor
  · exact (proxy_forward_contract ⟨false⟩ netOkEmpty demoPostReq
      "http://auth-service:8001" "/login" rfl).2.2.2.2.2.1 _ (Json.obj []) rfl rfl
  · exact (proxy_forward_contract ⟨false⟩ netOkEmpty demoPostReq
      "http://auth-service:8001" "/login" rfl).2.2.2.2.1 (Or.inl rfl)

/-! ## Claim C9 -/

/-- Counterexample to claim C9 as stated: the entry written by a
successful login is keyed `token:{subject_id}`, not `session:{subject_id}`
— after alice (subject id "u1") logs in there is no entry under
"session:u1", while "token:u1" holds the issued token. -/
theorem session_key_prefix_counterexample :
    login_user demoCfg ⟨"alice", "pw123"⟩ demoState 100 =
      Except.ok (demoAliceToken, 1440 * 60, demoStateAfter1)
    ∧ redisGetEntry demoStateAfter1.redis "session:u1" = none
    ∧ redisGetEntry demoStateAfter1.redis "token:u1" =
      some ⟨1440 * 60, demoAliceToken⟩ :=
  ⟨rfl, rfl, rfl⟩

/-- Claim C9 amended: for every successful login of a subject with id S
issuing token T, the revocation-store entry written is keyed `token:{S}`,
its value is exactly T, and its TTL equals the configured token lifetime
in seconds (`jwt_expire_minutes * 60`), which is also the `expires_in`
returned to the client. -/
theorem session_entry_shape (cfg : AuthSettings) (ld : UserLogin)
    (st : AuthState) (now : Nat) (t : Token) (e : Nat) (st' : AuthState)
    (h : login_user cfg ld st now = Except.ok (t, e, st')) :
    redisGetEntry st'.redis ("token:" ++ tokenSub t) =
      some ⟨cfg.jwt_expire_minutes * 60, t⟩
    ∧ e = cfg.jwt_expire_minutes * 60 := by
  obtain ⟨u, hu, hp, ha, ht, he, hst⟩ := login_user_ok_inv h
  subst hst
  have hsub : tokenSub t = u.id := by rw [ht]; rfl
  rw [hsub]
  exact ⟨redisGetEntry_setex_self _ _ _ _, he⟩

/-- Witness for the amended C9: alice's login writes `token:u1` with her
token as value and TTL 86400 = 1440 minutes in seconds. -/
theorem session_entry_shape_witness :
    redisGetEntry demoStateAfter1.redis ("token:" ++ tokenSub demoAliceToken) =
      some ⟨1440 * 60, demoAliceToken⟩ :=
  (session_entry_shape demoCfg ⟨"alice", "pw123"⟩ demoState 100 demoAliceToken
    (1440 * 60) demoStateAfter1 rfl).1

/-! ## Claim C10 -/

/-- Claim C10: for a registration whose email validates and whose email
and username are fresh, the persisted identity record carries exactly the
role and is_active supplied in the request body; the pydantic defaults
`viewer` / `true` apply only when the optional fields are omitted, and
nothing restricts the supplied role — `admin` passes through unchanged. -/
theorem register_role_passthrough (email username password : String)
    (full_name : Option String) (role : Option UserRole) (active : Option Bool)
    (st : AuthState) (new_id : String) (now : Nat)
    (hv : validate_email email = true)
    (he : get_by_email st.users email = none)
    (hu : get_by_username st.users username = none) :
    register_user (mkUserCreate email username password full_name role active)
        st new_id now =
      Except.ok ⟨st.users ++ [⟨new_id, email, username, full_name,
        hash_password password, role.getD UserRole.viewer, active.getD true,
        now, none, none⟩], st.redis⟩
    ∧ (mkUserCreate email username password full_name none none).role =
        UserRole.viewer
    ∧ (mkUserCreate email username password full_name none none).is_active = true
    ∧ (mkUserCreate email username password full_name (some UserRole.admin)
        active).role = UserRole.admin := by
  refine ⟨?_, rfl, rfl, rfl⟩
  simp [register_user, mkUserCreate, crud_create, hv, he, hu]

/-- Witness for C10: a self-registration that supplies role `admin` is
persisted with role `admin` and the default `is_active = true`. -/
theorem register_role_passthrough_witness :
    register_user (mkUserCreate "eve@x.com" "eve" "pw789" none
        (some UserRole.admin) none) demoState "u9" 7 =
      Except.ok ⟨demoState.users ++ [⟨"u9", "eve@x.com", "eve", none,
        hash_password "pw789", UserRole.admin, true, 7, none, none⟩],
        demoState.redis⟩ :=
  (register_role_passthrough "eve@x.com" "eve" "pw789" none
    (some UserRole.admin) none demoState "u9" 7 (by decide) rfl rfl).1

end Teledetection
